import Mathlib

/-!
Verification development for the `tealer` static analyzer core: the
instruction model, the CFG builder, the constant-pool resolution, the
path-enumeration detector framework, and the `ComparableEnum` utility.

The repository sources available are `tests/test_parsing.py`,
`tests/detectors/fee_check.py` and `tealer/utils/comparable_enum.py`.
The implementation modules (`tealer/teal/parse_teal.py`,
`tealer/teal/instructions/*`, `tealer/utils/analyses.py`,
`tealer/detectors/*`) are not among the available sources, so those parts
are modelled from the specification document, with every behavioral
choice pinned against the assertions of the available test files; each
such definition carries a doc comment saying so.
-/

namespace Tealer

/-- Transaction fields needed by the embedded programs (the full field
catalog is out of scope of the spec). -/
inductive TxField
  | Receiver | RekeyTo | CloseRemainderTo | AssetCloseTo | Fee
  deriving DecidableEq, Repr

/-- Global fields needed by the embedded programs. -/
inductive GlobalField
  | ZeroAddress | GroupSize
  deriving DecidableEq, Repr

/-- Modelled from the spec: the instruction model (§3, §4.1) of
`tealer/teal/instructions/instructions.py`, which is not among the
available sources.  One constructor per opcode kind exercised by the
available tests; `unsupported` is the inert placeholder for opcodes
outside the recognized grammar, carrying the original stripped source
line verbatim (pinned by `test_unsupported_instructions`). -/
inductive Instruction
  | pragma (version : Nat)
  | int (value : Nat)
  | pushint (value : Nat)
  | addr (s : String)
  | txn (f : TxField)
  | globalIns (g : GlobalField)
  | eq
  | lt
  | add
  | dup
  | err
  | ret
  | b (label : String)
  | bz (label : String)
  | bnz (label : String)
  | switchIns (labels : List String)
  | matchIns (labels : List String)
  | label (name : String)
  | callsub (label : String)
  | retsub
  | intcblock (constants : List Nat)
  | intc (idx : Nat)
  | unsupported (verbatim_line : String)
  deriving DecidableEq, Repr

namespace Instruction

/-- Control-transferring instructions per §4.3: unconditional jump,
conditional jump, subroutine call, subroutine return, multi-target jump,
terminal success/failure.  A new basic block begins right after any of
these. -/
def isControlTransfer : Instruction → Bool
  | .b _ | .bz _ | .bnz _ | .switchIns _ | .matchIns _
  | .callsub _ | .retsub | .ret | .err => true
  | _ => false

/-- Instructions that unconditionally transfer control (§4.3 fallthrough
rule: an unconditional jump, a terminal return/error, or a subroutine
return); no fallthrough edge leaves a block exiting on one of these. -/
def isUnconditionalTransfer : Instruction → Bool
  | .b _ | .retsub | .ret | .err => true
  | _ => false

/-- Target label names carried by branch-class instructions (§4.1): one
for simple jumps and subroutine calls, many for switch/match. -/
def branchTargets : Instruction → List String
  | .b l | .bz l | .bnz l | .callsub l => [l]
  | .switchIns ls | .matchIns ls => ls
  | _ => []

end Instruction

/-- Every label name targeted by some branch-class instruction of the
program. -/
def allTargets (prog : List Instruction) : List String :=
  prog.flatMap Instruction.branchTargets

/-- Position of the label pseudo-instruction declaring name `l`
(§4.1 label resolution; first declaration wins). -/
def labelIdx (prog : List Instruction) (l : String) : Option Nat :=
  prog.findIdx? (fun i => i = Instruction.label l)

/-- Modelled from the spec: block-splitting rule of the CFG builder
(§4.3, `tealer/teal/parse_teal.py`, not among the available sources).
Instruction `i` starts a new basic block iff it is the first
instruction, a label targeted by some branch, or immediately follows a
control-transferring instruction. -/
def isBlockStart (prog : List Instruction) (i : Nat) : Bool :=
  i == 0 ||
  (match prog[i]? with
   | some (Instruction.label l) => (allTargets prog).contains l
   | _ => false) ||
  (match i, prog[i-1]? with
   | Nat.succ _, some p => p.isControlTransfer
   | _, _ => false)

/-- Indices at which basic blocks begin, in program order. -/
def blockStarts (prog : List Instruction) : List Nat :=
  (List.range prog.length).filter (isBlockStart prog)

/-- Basic blocks as half-open index ranges `(start, stop)`, in stable
order (§3: a block's stable ordering index is its position here). -/
def blockRanges (prog : List Instruction) : List (Nat × Nat) :=
  let starts := blockStarts prog
  starts.zip (starts.drop 1 ++ [prog.length])

/-- Stable index of the basic block containing instruction `i`: the
number of block starts at or before `i`, minus one. -/
def blockOfIdx (prog : List Instruction) (i : Nat) : Nat :=
  ((blockStarts prog).filter (fun s => s ≤ i)).length - 1

/-- Number of basic blocks of the program. -/
def numBlocks (prog : List Instruction) : Nat :=
  (blockRanges prog).length

/-- Index range of block `b`. -/
def blockRange (prog : List Instruction) (bIdx : Nat) : Nat × Nat :=
  (blockRanges prog).getD bIdx (0, 0)

/-- Instructions contained in block `b` (§3: the list of contained
instructions). -/
def blockIns (prog : List Instruction) (bIdx : Nat) : List Instruction :=
  let r := blockRange prog bIdx
  (prog.drop r.1).take (r.2 - r.1)

/-- Index of the exit instruction of block `b` (§3: the last
instruction before the next split point). -/
def exitIdx (prog : List Instruction) (bIdx : Nat) : Nat :=
  (blockRange prog bIdx).2 - 1

/-- The exit instruction of block `b`. -/
def exitIns (prog : List Instruction) (bIdx : Nat) : Option Instruction :=
  prog[exitIdx prog bIdx]?

/-- Block holding the target of label `l`, when `l` resolves. -/
def labelBlock (prog : List Instruction) (l : String) : Option Nat :=
  (labelIdx prog l).map (blockOfIdx prog)

/-- Fallthrough successor of block `b`: the next block in program
order, when one exists (§4.3 fallthrough edge). -/
def fallthrough (prog : List Instruction) (bIdx : Nat) : List Nat :=
  if bIdx + 1 < numBlocks prog then [bIdx + 1] else []

/-- Modelled from the spec: the return point of the call-class
instruction at index `i` (§3, §4.3): the instruction that textually
follows the call, recorded on the call instruction itself, not as a
block edge.  `none` when the call is the last instruction. -/
def returnPoint (prog : List Instruction) (i : Nat) : Option Nat :=
  match prog[i]? with
  | some (Instruction.callsub _) => if i + 1 < prog.length then some (i + 1) else none
  | _ => none

/-- Modelled from the spec: successor edges of the CFG builder (§4.3,
`tealer/teal/parse_teal.py`, not among the available sources).
Fallthrough unless the exit transfers unconditionally; explicit edges to
every labeled target; a subroutine call's only edge goes to the
subroutine's entry block (its textual successor is `returnPoint`, not an
edge); a subroutine return has no successors. -/
def cfgSuccessors (prog : List Instruction) (bIdx : Nat) : List Nat :=
  match exitIns prog bIdx with
  | some (Instruction.b l) => (labelBlock prog l).toList
  | some (Instruction.bz l) => fallthrough prog bIdx ++ (labelBlock prog l).toList
  | some (Instruction.bnz l) => fallthrough prog bIdx ++ (labelBlock prog l).toList
  | some (Instruction.switchIns ls) =>
      fallthrough prog bIdx ++ ls.flatMap (fun l => (labelBlock prog l).toList)
  | some (Instruction.matchIns ls) =>
      fallthrough prog bIdx ++ ls.flatMap (fun l => (labelBlock prog l).toList)
  | some (Instruction.callsub l) => (labelBlock prog l).toList
  | some Instruction.retsub => []
  | some Instruction.ret => []
  | some Instruction.err => []
  | some _ => fallthrough prog bIdx
  | none => []

/-- Modelled from the spec and pinned by `test_parsing_with_reference`
(tests/test_parsing.py lines 144-165): the successor edges of the NEW
CFG builder (`teal._bbs_NEW`), which differ from `cfgSuccessors` only at
subroutine calls and returns: a call-exiting block's single successor is
the block of the call's return point (zero successors when the call is
the last instruction), and a retsub-exiting block again has none. -/
def cfgSuccessorsNEW (prog : List Instruction) (bIdx : Nat) : List Nat :=
  match exitIns prog bIdx with
  | some (Instruction.callsub _) =>
      match returnPoint prog (exitIdx prog bIdx) with
      | some r => [blockOfIdx prog r]
      | none => []
  | some Instruction.retsub => []
  | _ => cfgSuccessors prog bIdx

/-- Predecessor blocks of block `b` (§3). -/
def cfgPredecessors (prog : List Instruction) (bIdx : Nat) : List Nat :=
  (List.range (numBlocks prog)).filter (fun p => (cfgSuccessors prog p).contains bIdx)

/-! ## Constant-pool resolution

The resolving code (`tealer/utils/analyses.py::is_int_push_ins` together
with the pool bookkeeping in `tealer/teal/parse_teal.py`) is not among
the available sources.  Its observable behavior is pinned by the
in-repository tests `test_intc_bytec` and `test_intc_bytec_false`
(tests/test_parsing.py): a pool reference `intc i` resolves to a literal
exactly when the program contains a single pool-declaring instruction
for that pool kind, that declaration sits in the entry basic block, and
slot `i` is within its range; in every other situation the analysis
reports the pair `(recognized = true, value = none)` — in particular for
all five `INTCBLOCK_FALSE_TEST` programs, whose references the test
asserts to be `(True, None)`. -/

/-- Indices of the integer-pool declarations (`intcblock`) of the
program, in order. -/
def intcblockIdxs (prog : List Instruction) : List Nat :=
  (List.range prog.length).filter (fun i =>
    match prog[i]? with
    | some (Instruction.intcblock _) => true
    | _ => false)

/-- End of the entry basic block: the stop index of block 0. -/
def entryBlockEnd (prog : List Instruction) : Nat :=
  (blockRange prog 0).2

/-- Modelled from the spec and pinned by `test_intc_bytec` /
`test_intc_bytec_false`: resolution of a reference to slot `slot` of the
integer constant pool.  Known only when the program has exactly one
`intcblock`, located in the entry block, with `slot` in range; `none`
(unknown) otherwise. -/
def resolveIntc (prog : List Instruction) (slot : Nat) : Option Nat :=
  match intcblockIdxs prog with
  | [d] =>
      if d < entryBlockEnd prog then
        match prog[d]? with
        | some (Instruction.intcblock cs) => cs[slot]?
        | _ => none
      else none
  | _ => none

/-- Modelled from the spec (§4.4 step 4) and pinned by the tests: the
result pair of `tealer/utils/analyses.py::is_int_push_ins` — whether the
instruction is recognized as pushing an integer (always true for
in-grammar integer pushes and pool references) and the resolved value
(a literal, or `none` for unknown). -/
def is_int_push_ins (prog : List Instruction) : Instruction → Bool × Option Nat
  | .int v => (true, some v)
  | .pushint v => (true, some v)
  | .intc i => (true, resolveIntc prog i)
  | _ => (false, none)

/-- The program `INTCBLOCK_FALSE_TEST_1` of tests/test_parsing.py
(lines 420-430): two sequential integer-pool declarations with no
intervening use, then references to slots 0-4. -/
def INTCBLOCK_FALSE_TEST_1 : List Instruction :=
  [ .pragma 7,
    .intcblock [0x00, 0x01, 0x02, 0x03, 0x04, 0x05, 0x06],
    .intcblock [0x07, 0x08, 0x09, 0x10, 0x11, 0x12, 0x13],
    .intc 0,
    .intc 1,
    .intc 2,
    .intc 3,
    .intc 4,
    .ret ]

/-- The program `INTCBLOCK_FALSE_TEST_2` of tests/test_parsing.py: a
single pool declaration that is not in the entry block. -/
def INTCBLOCK_FALSE_TEST_2 : List Instruction :=
  [ .pragma 7,
    .int 0,
    .int 1,
    .add,
    .b "next",
    .label "next",
    .intcblock [0x00, 0x01, 0x02, 0x03, 0x04, 0x05, 0x06],
    .intc 0,
    .intc 1,
    .intc 2,
    .intc 3,
    .intc 4,
    .ret ]

/-- The program `INTCBLOCK_FALSE_TEST_3` of tests/test_parsing.py: pool
references with no declaration at all. -/
def INTCBLOCK_FALSE_TEST_3 : List Instruction :=
  [ .pragma 7, .intc 0, .intc 1, .ret ]

/-- The program `INTCBLOCK_FALSE_TEST_4` of tests/test_parsing.py: a
single entry-block declaration but an out-of-range slot reference. -/
def INTCBLOCK_FALSE_TEST_4 : List Instruction :=
  [ .pragma 7,
    .intcblock [0x00, 0x01, 0x02, 0x03],
    .intc 7 ]

/-- The program `INTCBLOCK_FALSE_TEST_5` of tests/test_parsing.py
(lines 457-476): a pool declaration on only one branch of a two-way
split, with a reference after the merge point. -/
def INTCBLOCK_FALSE_TEST_5 : List Instruction :=
  [ .pragma 7,
    .intcblock [0x00, 0x01, 0x02, 0x03],
    .txn .RekeyTo,
    .globalIns .ZeroAddress,
    .eq,
    .bnz "branch",
    .b "sub",
    .label "branch",
    .intcblock [0x04, 0x05, 0x06, 0x07, 0x08, 0x09, 0xa],
    .label "sub",
    .intc 9 ]

/-! ## Path-enumeration / detector framework

The detector implementation (`tealer/detectors/*`, the generic
depth-first path search) is not among the available sources; it is
modelled from §4.5 of the spec.  The concrete CFG it is run on below is
taken verbatim from `tests/detectors/fee_check.py`. -/

/-- Modelled from the spec (§4.5 representative example): a guard block
of the missing-fee-check detector contains a comparison of the `Fee`
transaction field against an expected value and exits on a conditional
branch that aborts when the comparison fails. -/
def isGuardBlock (prog : List Instruction) (bIdx : Nat) : Bool :=
  ((blockIns prog bIdx).contains (Instruction.txn TxField.Fee)) &&
  ((blockIns prog bIdx).any (fun i => i = Instruction.eq || i = Instruction.lt)) &&
  (match exitIns prog bIdx with
   | some (Instruction.bz _) => true
   | some (Instruction.bnz _) => true
   | _ => false)

/-- Modelled from the spec (§4.5): a sink block is one whose exit
instruction is an unconditional success return. -/
def isSinkBlock (prog : List Instruction) (bIdx : Nat) : Bool :=
  match exitIns prog bIdx with
  | some Instruction.ret => true
  | _ => false

/-- Modelled from the spec (§4.5): depth-first path enumeration from a
block, carrying the per-path guard-satisfied flag and the on-path
visited-block set that bounds each block to one visit per path.  `fuel`
only bounds the recursion depth for Lean; a `some` result certifies the
search completed without hitting the bound, so the per-path
visited-block set alone stopped loop exploration. -/
def explore (prog : List Instruction) (fuel : Nat) (cur : Nat)
    (visited : List Nat) (path : List Nat) (guardSeen : Bool) :
    Option (List (List Nat)) :=
  match fuel with
  | 0 => none
  | Nat.succ fuel =>
      let guardSeen' := guardSeen || isGuardBlock prog cur
      let path' := path ++ [cur]
      let visited' := cur :: visited
      let here := if isSinkBlock prog cur && !guardSeen' then [path'] else []
      let nexts := (cfgSuccessors prog cur).filter (fun n => !visited'.contains n)
      (nexts.mapM (fun n => explore prog fuel n visited' path' guardSeen')).map
        (fun rs => here ++ rs.flatten)

/-- Modelled from the spec (§4.5): the ordered list of vulnerable paths
of the missing-fee-check detector — every entry-to-sink block sequence
that never traverses a guard block.  `some` certifies termination
within the per-path visited-block bound. -/
def enumVulnerablePaths (prog : List Instruction) : Option (List (List Nat)) :=
  explore prog (numBlocks prog + 1) 0 [] [] false

/-- The contract `MISSING_FEE_CHECK_LOOP` of
tests/detectors/fee_check.py (lines 110-151): all checks except the fee
check, with the success path entering a bounded loop before returning. -/
def MISSING_FEE_CHECK_LOOP : List Instruction :=
  [ .pragma 4,
    .txn .Receiver,
    .addr "6ZIOGDXGSQSL4YINHLKCHYRV64FSN4LTUIQ6A4VWYK36FXFF42VI2UV7SM",
    .eq,
    .bz "wrongreceiver",
    .txn .RekeyTo,
    .globalIns .ZeroAddress,
    .eq,
    .bz "rekeying",
    .txn .CloseRemainderTo,
    .globalIns .ZeroAddress,
    .eq,
    .bz "closing_account",
    .txn .AssetCloseTo,
    .globalIns .ZeroAddress,
    .eq,
    .bz "closing_asset",
    .globalIns .GroupSize,
    .int 1,
    .eq,
    .bz "unexpected_group_size",
    .int 0,
    .b "loop",
    .label "wrongreceiver",
    .label "rekeying",
    .label "closing_account",
    .label "closing_asset",
    .label "unexpected_group_size",
    .err,
    .label "loop",
    .dup,
    .int 5,
    .lt,
    .bz "end",
    .int 1,
    .add,
    .b "loop",
    .label "end",
    .int 1,
    .ret ]

/-- The expected basic-block partition `ins_partitions` for
`MISSING_FEE_CHECK_LOOP`, verbatim from tests/detectors/fee_check.py
(lines 196-211). -/
def loopInsPartitions : List (Nat × Nat) :=
  [ (0, 5), (5, 9), (9, 13), (13, 17), (17, 21), (21, 23), (23, 24),
    (24, 25), (25, 26), (26, 27), (27, 29), (29, 34), (34, 37), (37, 40) ]

/-- The expected block links `bbs_links` for `MISSING_FEE_CHECK_LOOP`,
verbatim from tests/detectors/fee_check.py (lines 213-228). -/
def loopBbsLinks : List (Nat × Nat) :=
  [ (0, 1), (0, 6), (1, 2), (1, 7), (2, 3), (2, 8), (3, 4), (3, 9),
    (4, 5), (4, 10), (5, 11), (11, 12), (11, 13), (12, 11) ]

/-- The expected detector result
`MISSING_FEE_CHECK_LOOP_VULNERABLE_PATHS`, verbatim from
tests/detectors/fee_check.py (lines 232-234), as block indices. -/
def loopVulnerablePaths : List (List Nat) :=
  [[0, 1, 2, 3, 4, 5, 11, 13]]

/-- All successor edges of the modelled CFG builder, as
(block, successor) pairs in stable order. -/
def allEdges (prog : List Instruction) : List (Nat × Nat) :=
  (List.range (numBlocks prog)).flatMap
    (fun bIdx => (cfgSuccessors prog bIdx).map (fun s => (bIdx, s)))

/-! ## Line parsing and the unsupported-opcode placeholder

The line parser (`tealer/teal/instructions/parse_instruction.py`) is not
among the available sources; it is modelled from §4.2 of the spec over
the opcode subset of `Instruction`, and the placeholder behavior is
pinned by `test_unsupported_instructions` (tests/test_parsing.py lines
279-284). -/

/-- Parse-time input errors (§4.2): malformed immediate-operand syntax. -/
inductive ParseError
  | wrongOperandCount (line : String)
  | badLiteral (line : String)
  deriving DecidableEq, Repr

/-- Whitespace characters recognized by the tokenizer. -/
def isSpaceChar (c : Char) : Bool :=
  c = ' ' || c = '\t' || c = '\n' || c = '\r'

/-- Characters of the line before the fixed comment delimiter "//". -/
def dropCommentChars : List Char → List Char
  | [] => []
  | '/' :: '/' :: _ => []
  | c :: rest => c :: dropCommentChars rest

/-- Strip leading and trailing whitespace from a character list. -/
def trimChars (cs : List Char) : List Char :=
  ((cs.dropWhile isSpaceChar).reverse.dropWhile isSpaceChar).reverse

/-- Fuel-bounded whitespace tokenizer; the fuel is only a structural
recursion bound and `cs.length` always suffices. -/
def tokenizeAux : Nat → List Char → List (List Char)
  | 0, _ => []
  | Nat.succ _, [] => []
  | Nat.succ n, c :: rest =>
      if isSpaceChar c then tokenizeAux n rest
      else ((c :: rest).takeWhile (fun d => !isSpaceChar d)) ::
           tokenizeAux n (rest.dropWhile (fun d => !isSpaceChar d))

/-- Whitespace-separated tokens of the comment-stripped line. -/
def tokensOf (line : String) : List String :=
  let cs := dropCommentChars line.toList
  (tokenizeAux cs.length cs).map (fun t => String.mk t)

/-- The stripped source text of the line: comment removed, surrounding
whitespace trimmed (Python's `line.strip()` in the tests). -/
def verbatimOf (line : String) : String :=
  String.mk (trimChars (dropCommentChars line.toList))

/-- Decimal-digit parse of a token (the only literal form the modelled
opcode subset needs). -/
def charsToNat? (cs : List Char) : Option Nat :=
  if cs = [] then none
  else cs.foldl (fun acc c =>
    acc.bind (fun n => if c.isDigit then some (n * 10 + (c.toNat - 48)) else none))
    (some 0)

/-- The opcode mnemonics of the recognized grammar modelled here; a
first token outside this list (and not a label declaration) is an
unrecognized opcode. -/
def recognizedOpcodes : List String :=
  [ "#pragma", "int", "pushint", "addr", "txn", "global", "==", "<", "+",
    "dup", "err", "return", "b", "bz", "bnz", "switch", "match",
    "callsub", "retsub", "intcblock", "intc" ]

/-- Transaction-field mnemonic table for the modelled fields. -/
def parseTxField : String → Option TxField
  | "Receiver" => some .Receiver
  | "RekeyTo" => some .RekeyTo
  | "CloseRemainderTo" => some .CloseRemainderTo
  | "AssetCloseTo" => some .AssetCloseTo
  | "Fee" => some .Fee
  | _ => none

/-- Global-field mnemonic table for the modelled fields. -/
def parseGlobalField : String → Option GlobalField
  | "ZeroAddress" => some .ZeroAddress
  | "GroupSize" => some .GroupSize
  | _ => none

/-- Expect exactly one immediate operand parsed by `f`. -/
def oneArg (line : String) (args : List String) (f : String → Option Instruction) :
    Except ParseError (Option Instruction) :=
  match args with
  | [a] =>
      match f a with
      | some i => Except.ok (some i)
      | none => Except.error (ParseError.badLiteral line)
  | _ => Except.error (ParseError.wrongOperandCount line)

/-- Expect no immediate operand. -/
def noArg (line : String) (args : List String) (i : Instruction) :
    Except ParseError (Option Instruction) :=
  match args with
  | [] => Except.ok (some i)
  | _ => Except.error (ParseError.wrongOperandCount line)

/-- Modelled from the spec (§4.2, §4.1): `parse_line` of
`tealer/teal/instructions/parse_instruction.py`.  Produces nothing for
blank or pure-comment lines, a `ParseError` for malformed immediates of
recognized opcodes, and for a first token outside the recognized
grammar an inert `unsupported` placeholder carrying the stripped line
verbatim (pinned by `test_unsupported_instructions`). -/
def parse_line (line : String) : Except ParseError (Option Instruction) :=
  match tokensOf line with
  | [] => Except.ok none
  | tok :: args =>
      if tok.toList.getLast? = some ':' then
        match args with
        | [] => Except.ok (some (Instruction.label (String.mk tok.toList.dropLast)))
        | _ => Except.error (ParseError.wrongOperandCount line)
      else
        match tok with
        | "#pragma" =>
            match args with
            | ["version", n] =>
                match charsToNat? n.toList with
                | some v => Except.ok (some (Instruction.pragma v))
                | none => Except.error (ParseError.badLiteral line)
            | _ => Except.error (ParseError.wrongOperandCount line)
        | "int" => oneArg line args (fun a => (charsToNat? a.toList).map Instruction.int)
        | "pushint" => oneArg line args (fun a => (charsToNat? a.toList).map Instruction.pushint)
        | "addr" => oneArg line args (fun a => some (Instruction.addr a))
        | "txn" => oneArg line args (fun a => (parseTxField a).map Instruction.txn)
        | "global" => oneArg line args (fun a => (parseGlobalField a).map Instruction.globalIns)
        | "==" => noArg line args Instruction.eq
        | "<" => noArg line args Instruction.lt
        | "+" => noArg line args Instruction.add
        | "dup" => noArg line args Instruction.dup
        | "err" => noArg line args Instruction.err
        | "return" => noArg line args Instruction.ret
        | "b" => oneArg line args (fun a => some (Instruction.b a))
        | "bz" => oneArg line args (fun a => some (Instruction.bz a))
        | "bnz" => oneArg line args (fun a => some (Instruction.bnz a))
        | "switch" => Except.ok (some (Instruction.switchIns args))
        | "match" => Except.ok (some (Instruction.matchIns args))
        | "callsub" => oneArg line args (fun a => some (Instruction.callsub a))
        | "retsub" => noArg line args Instruction.retsub
        | "intcblock" =>
            match args.mapM (fun a => charsToNat? a.toList) with
            | some cs => Except.ok (some (Instruction.intcblock cs))
            | none => Except.error (ParseError.badLiteral line)
        | "intc" => oneArg line args (fun a => (charsToNat? a.toList).map Instruction.intc)
        | _ => Except.ok (some (Instruction.unsupported (verbatimOf line)))

/-- Printed form of an instruction (the `__str__` of the instruction
classes).  Only the `unsupported` case is pinned by an available test:
`test_unsupported_instructions` asserts it prints as the verbatim line
prefixed with "UNSUPPORTED ". -/
def instrStr : Instruction → String
  | .pragma n => "#pragma version " ++ toString n
  | .int v => "int " ++ toString v
  | .pushint v => "pushint " ++ toString v
  | .addr s => "addr " ++ s
  | .txn _ => "txn"
  | .globalIns _ => "global"
  | .eq => "=="
  | .lt => "<"
  | .add => "+"
  | .dup => "dup"
  | .err => "err"
  | .ret => "return"
  | .b l => "b " ++ l
  | .bz l => "bz " ++ l
  | .bnz l => "bnz " ++ l
  | .switchIns ls => String.intercalate " " ("switch" :: ls)
  | .matchIns ls => String.intercalate " " ("match" :: ls)
  | .label l => l ++ ":"
  | .callsub l => "callsub " ++ l
  | .retsub => "retsub"
  | .intcblock cs => String.intercalate " " ("intcblock" :: cs.map toString)
  | .intc i => "intc " ++ toString i
  | .unsupported l => "UNSUPPORTED " ++ l

/-! ## Write-once fields and the cost query -/

/-- Internal-consistency faults (§7): violations of write-once
invariants or out-of-order queries; modelled after `TealerException`. -/
inductive TealerFault
  | doubleWrite
  | costBeforeBlockAssignment
  deriving DecidableEq, Repr

/-- A call-class instruction's mutable state: its target and its
once-settable return point (§3), absent until CFG construction records
it. -/
structure CallsubState where
  target : String
  return_point : Option Instruction := none
  deriving DecidableEq, Repr

/-- Modelled from the spec (§3, §5, §7) and pinned by
`test_instruction_properties` (tests/test_parsing.py lines 319-325):
assigning the write-once return-point field.  The first assignment
succeeds; an assignment to an already-set field fails with an
internal-consistency fault instead of overwriting. -/
def setReturnPoint (c : CallsubState) (ins : Instruction) :
    Except TealerFault CallsubState :=
  match c.return_point with
  | none => Except.ok { c with return_point := some ins }
  | some _ => Except.error TealerFault.doubleWrite

/-- Opcodes exercised by `test_cost_values` whose cost or minimum
version matter here. -/
inductive CostOpcode
  | sha256 | keccak256 | ecdsa_verify | ecdsa_pk_decompress | ecdsa_pk_recover
  | bsqrt | base64_decode | json_ref | ed25519verify_bare
  deriving DecidableEq, Repr

/-- Modelled from the spec (§4.1, §3): the minimum language version
required by each opcode. -/
def minVersion : CostOpcode → Nat
  | .sha256 => 1
  | .keccak256 => 1
  | .ecdsa_verify => 5
  | .ecdsa_pk_decompress => 5
  | .ecdsa_pk_recover => 5
  | .bsqrt => 6
  | .base64_decode => 7
  | .json_ref => 7
  | .ed25519verify_bare => 7

/-- Modelled from the spec (§4.1): the opcode's fixed or
version-dependent execution cost, applicable once the instruction's
version gate passes. -/
def opcodeCost (version : Nat) : CostOpcode → Nat
  | .sha256 => if version < 2 then 7 else 35
  | .keccak256 => if version < 2 then 26 else 130
  | .ecdsa_verify => 1700
  | .ecdsa_pk_decompress => 650
  | .ecdsa_pk_recover => 2000
  | .bsqrt => 40
  | .base64_decode => 1
  | .json_ref => 25
  | .ed25519verify_bare => 1900

/-- Modelled from the spec (§4.1) and pinned by `test_cost_values`: the
cost query.  `assignedVersion` is the program version reachable through
the instruction's owning basic block — `none` when the instruction has
not been assigned to a block yet, in which case the query fails with an
internal-consistency fault.  Returns 0 when the opcode's minimum
required version exceeds the program's declared version. -/
def cost (op : CostOpcode) (assignedVersion : Option Nat) :
    Except TealerFault Nat :=
  match assignedVersion with
  | none => Except.error TealerFault.costBeforeBlockAssignment
  | some v => if v < minVersion op then Except.ok 0 else Except.ok (opcodeCost v op)

/-- Declared language version of a parsed program: the leading version
directive when present, else the default version 2 (§6). -/
def declaredVersion (prog : List Instruction) : Nat :=
  match prog with
  | Instruction.pragma n :: _ => n
  | _ => 2

/-! ## ComparableEnum (tealer/utils/comparable_enum.py)

This is the one component whose source is among the available files;
the definitions below embed it directly.  A member of a
`ComparableEnum` subclass is modelled with its owning class name, its
member name and its underlying `value` (an integer for the enums the
analyzer uses); an arbitrary non-member Python value is the `other`
constructor. -/

/-- A member of some ComparableEnum subclass: owning class, member
name, underlying value. -/
structure EnumMember where
  cls : String
  name : String
  value : Int
  deriving DecidableEq, Repr

/-- A Python comparand: either a ComparableEnum member or any value
that is not one. -/
inductive PyVal
  | member (m : EnumMember)
  | other (repr_ : String)
  deriving DecidableEq, Repr

/-- Model of Python's builtin `hash` restricted to the int values the
enums carry (identity on small ints). -/
def pyHash (v : Int) : Int := v

/-- `ComparableEnum.__eq__` (comparable_enum.py lines 9-12): value
equality when the comparand is a ComparableEnum member, `False`
otherwise. -/
def ceEq (self : EnumMember) : PyVal → Bool
  | .member o => self.value == o.value
  | .other _ => false

/-- `ComparableEnum.__ne__` (comparable_enum.py lines 14-17): value
inequality when the comparand is a ComparableEnum member, `False`
otherwise. -/
def ceNe (self : EnumMember) : PyVal → Bool
  | .member o => self.value != o.value
  | .other _ => false

/-- `ComparableEnum.__lt__` (comparable_enum.py lines 19-22): value
ordering when the comparand is a ComparableEnum member, `False`
otherwise. -/
def ceLt (self : EnumMember) : PyVal → Bool
  | .member o => decide (self.value < o.value)
  | .other _ => false

/-- `ComparableEnum.__hash__` (comparable_enum.py lines 27-28):
the hash of the underlying value. -/
def ceHash (self : EnumMember) : Int := pyHash self.value

/-! ## Small helper definitions used by the theorems below -/

/-- Whether an instruction is an integer-pool declaration. -/
def isIntcblockIns : Instruction → Bool
  | .intcblock _ => true
  | _ => false

/-- Whether block `b` exits on a subroutine call. -/
def isCallsubExit (prog : List Instruction) (bIdx : Nat) : Bool :=
  match exitIns prog bIdx with
  | some (Instruction.callsub _) => true
  | _ => false

/-- Whether block `b` exits on a subroutine return. -/
def isRetsubExit (prog : List Instruction) (bIdx : Nat) : Bool :=
  match exitIns prog bIdx with
  | some Instruction.retsub => true
  | _ => false

/-- A small subroutine-using program used for concrete checks: a call,
its textual successor, a terminal return, and the subroutine body
(mirrors the call/return shapes of tests/parsing/multiple_retsub.teal
exercised by `test_parsing_with_reference`). -/
def subProg : List Instruction :=
  [ .callsub "main", .int 1, .ret, .label "main", .retsub ]

/-! ## Validation of the modelled CFG builder against the repository's
test data (tests/detectors/fee_check.py) -/

/-- The modelled block-splitting rule reproduces, instruction for
instruction, the `ins_partitions` the repository's own test states for
the `MISSING_FEE_CHECK_LOOP` contract. -/
theorem loop_partition_matches_test_data :
    blockRanges MISSING_FEE_CHECK_LOOP = loopInsPartitions := by
  decide

/-- Every block link the repository's test states for
`MISSING_FEE_CHECK_LOOP` is an edge of the modelled CFG builder. -/
theorem loop_links_are_model_edges :
    ∀ e ∈ loopBbsLinks, e ∈ allEdges MISSING_FEE_CHECK_LOOP := by
  decide

/-! ## Claim theorems -/

/-- C1: for every basic block whose exit instruction is a subroutine
call whose target label resolves, the CFG builder's outgoing edge set
for the block is exactly the singleton holding the called subroutine's
entry block — in particular no generic edge to the call's textual
successor is added — and the textual successor (when the call is not
the last instruction) is recorded only as the call instruction's
return point. -/
theorem c1_callsub_edge_goes_to_subroutine_entry
    (prog : List Instruction) (bIdx : Nat) (l : String) (t : Nat)
    (hexit : exitIns prog bIdx = some (Instruction.callsub l))
    (htgt : labelIdx prog l = some t) :
    cfgSuccessors prog bIdx = [blockOfIdx prog t] ∧
    returnPoint prog (exitIdx prog bIdx) =
      (if exitIdx prog bIdx + 1 < prog.length
       then some (exitIdx prog bIdx + 1) else none) := by
  constructor
  · simp [cfgSuccessors, hexit, labelBlock, htgt]
  · have h : prog[exitIdx prog bIdx]? = some (Instruction.callsub l) := hexit
    simp [returnPoint, h]

/-- Witness for C1: the call block of `subProg` gets the single edge to
the subroutine entry block and records its textual successor as the
return point. -/
theorem c1_witness :
    (exitIns subProg 0 = some (Instruction.callsub "main") ∧
     labelIdx subProg "main" = some 3) ∧
    cfgSuccessors subProg 0 = [blockOfIdx subProg 3] ∧
    returnPoint subProg (exitIdx subProg 0) =
      (if exitIdx subProg 0 + 1 < subProg.length
       then some (exitIdx subProg 0 + 1) else none) :=
  ⟨⟨rfl, rfl⟩,
   (c1_callsub_edge_goes_to_subroutine_entry subProg 0 "main" 3 rfl rfl).1,
   (c1_callsub_edge_goes_to_subroutine_entry subProg 0 "main" 3 rfl rfl).2⟩

/-- C8: after CFG construction, every basic block whose exit
instruction is a subroutine return has an empty successor list. -/
theorem c8_retsub_block_has_no_successors
    (prog : List Instruction) (bIdx : Nat)
    (hexit : exitIns prog bIdx = some Instruction.retsub) :
    cfgSuccessors prog bIdx = [] := by
  simp [cfgSuccessors, hexit]

/-- Witness for C8: the retsub-exiting block of `subProg` has no
successors. -/
theorem c8_witness :
    exitIns subProg 2 = some Instruction.retsub ∧
    cfgSuccessors subProg 2 = [] :=
  ⟨rfl, c8_retsub_block_has_no_successors subProg 2 rfl⟩

/-- C9: the old and the new CFG builder take the same parsed
instruction sequence and share the block partition (both are stated
over the same `blockRanges`, mirroring the test's assertions that
instruction lists, block counts and block contents coincide), so the
comparison reduces to successor sets: for every block not exiting on a
subroutine call or a subroutine return the two builders produce the
same successor list, and for a call-exiting block with a textual
successor the new builder's single successor is exactly the block of
the old call instruction's recorded return point. -/
theorem c9_new_cfg_matches_old_cfg_up_to_call_return
    (prog : List Instruction) (bIdx : Nat) :
    (isCallsubExit prog bIdx = false → isRetsubExit prog bIdx = false →
      cfgSuccessorsNEW prog bIdx = cfgSuccessors prog bIdx) ∧
    (∀ l r, exitIns prog bIdx = some (Instruction.callsub l) →
      returnPoint prog (exitIdx prog bIdx) = some r →
      cfgSuccessorsNEW prog bIdx = [blockOfIdx prog r]) := by
  constructor
  · intro hc hr
    cases h : exitIns prog bIdx with
    | none => simp [cfgSuccessorsNEW, h]
    | some i =>
        cases i <;> simp_all [cfgSuccessorsNEW, isCallsubExit, isRetsubExit]
  · intro l r hexit hret
    simp [cfgSuccessorsNEW, hexit, hret]

/-- Witness for C9: in `subProg`, a block not exiting on call/retsub
has identical successors under both builders, and the call block's
single new-CFG successor is the block of the recorded return point. -/
theorem c9_witness :
    (isCallsubExit subProg 1 = false ∧ isRetsubExit subProg 1 = false ∧
     cfgSuccessorsNEW subProg 1 = cfgSuccessors subProg 1) ∧
    (exitIns subProg 0 = some (Instruction.callsub "main") ∧
     returnPoint subProg (exitIdx subProg 0) = some 1 ∧
     cfgSuccessorsNEW subProg 0 = [blockOfIdx subProg 1]) :=
  ⟨⟨rfl, rfl,
    (c9_new_cfg_matches_old_cfg_up_to_call_return subProg 1).1 rfl rfl⟩,
   ⟨rfl, rfl,
    (c9_new_cfg_matches_old_cfg_up_to_call_return subProg 0).2 "main" 1 rfl rfl⟩⟩

/-- C2 counterexample: on `INTCBLOCK_FALSE_TEST_1` — two sequential
integer-pool declarations with no intervening use, the second
installing literal 0x07 at slot 0 — the analysis reports the reference
to slot 0 as (recognized = true, value = none), exactly as the
repository's own `test_intc_bytec_false` asserts, and NOT as the later
literal L2 = 0x07 that the claim states. -/
theorem c2_counterexample_two_pools_not_resolved_to_later :
    INTCBLOCK_FALSE_TEST_1[2]? =
      some (Instruction.intcblock [0x07, 0x08, 0x09, 0x10, 0x11, 0x12, 0x13]) ∧
    is_int_push_ins INTCBLOCK_FALSE_TEST_1 (Instruction.intc 0) = (true, none) ∧
    is_int_push_ins INTCBLOCK_FALSE_TEST_1 (Instruction.intc 0) ≠ (true, some 0x07) := by
  refine ⟨rfl, rfl, ?_⟩
  decide

/-- C2 as amended: for a program containing two (or more) pool
declarations — in particular two sequential declarations with no
intervening use — the analysis does not resolve a later reference to
the second declaration's literal: it reports the pair
(recognized = true, resolved value = none). -/
theorem c2_amended_two_pools_resolve_to_none
    (prog : List Instruction) (slot : Nat)
    (h : 2 ≤ (intcblockIdxs prog).length) :
    is_int_push_ins prog (Instruction.intc slot) = (true, none) := by
  have hres : resolveIntc prog slot = none := by
    unfold resolveIntc
    cases hm : intcblockIdxs prog with
    | nil => rfl
    | cons a t =>
        cases t with
        | nil => rw [hm] at h; simp at h
        | cons b u => rfl
  simp [is_int_push_ins, hres]

/-- Witness for the amended C2: `INTCBLOCK_FALSE_TEST_1` has two pool
declarations and its slot-0 reference resolves to none. -/
theorem c2_amended_witness :
    2 ≤ (intcblockIdxs INTCBLOCK_FALSE_TEST_1).length ∧
    is_int_push_ins INTCBLOCK_FALSE_TEST_1 (Instruction.intc 4) = (true, none) :=
  ⟨by decide, c2_amended_two_pools_resolve_to_none INTCBLOCK_FALSE_TEST_1 4 (by decide)⟩

/-- C3: on the `MISSING_FEE_CHECK_LOOP` contract — success path through
a bounded loop, fee check omitted — the modelled path enumeration
completes within the per-path visited-block bound (the `some` result
certifies no recursion cutoff) and reports exactly one vulnerable
path, equal to the block sequence the repository's test states, with
the loop-head block 11 appearing exactly once rather than once per
loop iteration. -/
theorem c3_fee_check_loop_terminates_single_path :
    enumVulnerablePaths MISSING_FEE_CHECK_LOOP = some loopVulnerablePaths ∧
    loopVulnerablePaths = [[0, 1, 2, 3, 4, 5, 11, 13]] ∧
    List.count 11 [0, 1, 2, 3, 4, 5, 11, 13] = 1 := by
  refine ⟨?_, rfl, rfl⟩
  decide

/-- C4: in `INTCBLOCK_FALSE_TEST_5` the second pool declaration sits on
only one of the two branch blocks (block 2 has one, block 1 has none),
the block of the reference `intc 9` is the merge point reachable from
both (its predecessors are exactly blocks 1 and 2), and the analysis
reports the reference as the pair
(recognized as a pool reference = true, resolved value = none). -/
theorem c4_one_branch_declaration_merge_is_unknown :
    cfgPredecessors INTCBLOCK_FALSE_TEST_5 3 = [1, 2] ∧
    (blockIns INTCBLOCK_FALSE_TEST_5 2).any isIntcblockIns = true ∧
    (blockIns INTCBLOCK_FALSE_TEST_5 1).any isIntcblockIns = false ∧
    (blockIns INTCBLOCK_FALSE_TEST_5 3).contains (Instruction.intc 9) = true ∧
    is_int_push_ins INTCBLOCK_FALSE_TEST_5 (Instruction.intc 9) = (true, none) := by
  refine ⟨?_, ?_, ?_, ?_, rfl⟩ <;> decide

/-- C5 counterexample: the unsupported line "not an instruction" parses
to the inert placeholder carrying the line verbatim, but printing the
placeholder yields "UNSUPPORTED not an instruction" (as the
repository's `test_unsupported_instructions` asserts), which is not
identical to the original line — refuting the claim's "printing the
instruction reproduces the line identically". -/
theorem c5_counterexample_print_adds_prefix :
    parse_line "not an instruction" =
      Except.ok (some (Instruction.unsupported "not an instruction")) ∧
    instrStr (Instruction.unsupported "not an instruction") =
      "UNSUPPORTED not an instruction" ∧
    instrStr (Instruction.unsupported "not an instruction") ≠ "not an instruction" := by
  refine ⟨rfl, rfl, ?_⟩
  decide

/-- C5 as amended: every line whose leading token is outside the
recognized grammar (and is not a label declaration) is not a parse
failure: it produces the inert placeholder that preserves the stripped
source line verbatim in its verbatim-line field and prints as that
line prefixed with "UNSUPPORTED "; the placeholder is non-branching,
never a control transfer and never a contributor of branch edges. -/
theorem c5_amended_unsupported_is_inert_placeholder
    (line tok : String) (args : List String)
    (htok : tokensOf line = tok :: args)
    (hlast : ¬ tok.toList.getLast? = some ':')
    (hrec : tok ∉ recognizedOpcodes) :
    parse_line line = Except.ok (some (Instruction.unsupported (verbatimOf line))) ∧
    instrStr (Instruction.unsupported (verbatimOf line)) =
      "UNSUPPORTED " ++ verbatimOf line ∧
    Instruction.isControlTransfer (Instruction.unsupported (verbatimOf line)) = false ∧
    Instruction.branchTargets (Instruction.unsupported (verbatimOf line)) = [] := by
  refine ⟨?_, rfl, rfl, rfl⟩
  simp only [parse_line, htok]
  rw [if_neg hlast]
  split
  all_goals first
    | rfl
    | (exfalso; simp_all [recognizedOpcodes])

/-- Witness for the amended C5 at the test's concrete line. -/
theorem c5_amended_witness :
    tokensOf "not an instruction" = "not" :: ["an", "instruction"] ∧
    ¬ ("not" : String).toList.getLast? = some ':' ∧
    "not" ∉ recognizedOpcodes ∧
    parse_line "not an instruction" =
      Except.ok (some (Instruction.unsupported (verbatimOf "not an instruction"))) :=
  ⟨rfl, by decide, by decide,
   (c5_amended_unsupported_is_inert_placeholder "not an instruction" "not"
     ["an", "instruction"] rfl (by decide) (by decide)).1⟩

/-- C6: the return-point field of a call-class instruction is
write-once: on a fresh instruction the first assignment succeeds, and
a second assignment attempt fails with an internal-consistency fault
instead of silently overwriting. -/
theorem c6_return_point_write_once
    (c : CallsubState) (i j : Instruction) (h : c.return_point = none) :
    setReturnPoint c i = Except.ok { c with return_point := some i } ∧
    setReturnPoint { c with return_point := some i } j =
      Except.error TealerFault.doubleWrite := by
  constructor
  · simp [setReturnPoint, h]
  · rfl

/-- Witness for C6: the `callsub main` instruction of
`test_instruction_properties`, first set succeeding and second set
faulting. -/
theorem c6_witness :
    ({ target := "main" } : CallsubState).return_point = none ∧
    setReturnPoint { target := "main" } (Instruction.int 1) =
      Except.ok { target := "main", return_point := some (Instruction.int 1) } ∧
    setReturnPoint { target := "main", return_point := some (Instruction.int 1) }
      (Instruction.int 1) = Except.error TealerFault.doubleWrite :=
  ⟨rfl,
   (c6_return_point_write_once { target := "main" } (Instruction.int 1)
     (Instruction.int 1) rfl).1,
   (c6_return_point_write_once { target := "main" } (Instruction.int 1)
     (Instruction.int 1) rfl).2⟩

/-- C7: the cost query fails with an internal-consistency fault when
the instruction has not been assigned to a basic block, and returns 0
for an instruction whose minimum required language version exceeds the
program's declared version. -/
theorem c7_cost_fault_and_version_gate
    (op : CostOpcode) (prog : List Instruction)
    (h : declaredVersion prog < minVersion op) :
    cost op none = Except.error TealerFault.costBeforeBlockAssignment ∧
    cost op (some (declaredVersion prog)) = Except.ok 0 := by
  refine ⟨rfl, ?_⟩
  simp [cost, h]

/-- Witness for C7: `ecdsa_verify` (minimum version 5) in a program
with no version directive (declared version defaults to 2). -/
theorem c7_witness :
    declaredVersion [] < minVersion CostOpcode.ecdsa_verify ∧
    cost CostOpcode.ecdsa_verify none =
      Except.error TealerFault.costBeforeBlockAssignment ∧
    cost CostOpcode.ecdsa_verify (some (declaredVersion [])) = Except.ok 0 :=
  ⟨by decide,
   (c7_cost_fault_and_version_gate CostOpcode.ecdsa_verify [] (by decide)).1,
   (c7_cost_fault_and_version_gate CostOpcode.ecdsa_verify [] (by decide)).2⟩

/-- C10: for every ComparableEnum member and every non-enum comparand
both equality and inequality evaluate to False — so inequality is not
the logical negation of equality there — while between two members
equality, inequality, ordering and hash are computed purely from the
members' underlying values (the right-hand sides below mention nothing
but the values). -/
theorem c10_comparable_enum_semantics (self o : EnumMember) (t : String) :
    ceEq self (PyVal.other t) = false ∧
    ceNe self (PyVal.other t) = false ∧
    ceNe self (PyVal.other t) ≠ (!ceEq self (PyVal.other t)) ∧
    ceEq self (PyVal.member o) = (self.value == o.value) ∧
    ceNe self (PyVal.member o) = (self.value != o.value) ∧
    ceLt self (PyVal.member o) = decide (self.value < o.value) ∧
    ceHash self = pyHash self.value := by
  refine ⟨rfl, rfl, ?_, rfl, rfl, rfl, rfl⟩
  simp [ceNe, ceEq]

end Tealer
